import Mathlib

/-!
Verification development for the voice-cloning batch TTS script
(`voice_cloning_script.py`).  The Python control logic — language
negotiation, speed clamping, per-request engine dispatch with fallback,
and the CSV/JSON batch loops — is shallowly embedded below.  External
effects (the TTS engines' `tts_to_file` / `gTTS.save` / pyttsx3 calls and
the filesystem) are modelled as explicit parameters: a filesystem is a map
from paths to file sizes, and an engine call either raises an exception
(carrying its message) or returns a new filesystem state.
-/

set_option maxHeartbeats 1000000

namespace VoiceCloning

/-- Filesystem model: `os.path.exists p` is `(fs p).isSome`, and
`os.path.getsize p` is the value carried by `some`. -/
def FS : Type := String → Option Nat

/-- The empty filesystem. -/
def fs0 : FS := fun _ => none

/-- Filesystem `base` with the file at `path` set to `size` bytes
(models a completed write). -/
def fsWith (path : String) (size : Nat) (base : FS) : FS :=
  fun p => if p = path then some size else base p

/-- Whitespace characters removed by Python's `str.strip()` (the ASCII
whitespace set, which covers every text this script manipulates). -/
def isPySpace (c : Char) : Bool :=
  c = ' ' || c = '\t' || c = '\n' || c = '\r' || c = '\x0b' || c = '\x0c'

/-- Model of Python `str.strip()`: drop whitespace from both ends. -/
def pyStrip (s : String) : String :=
  String.mk (((s.data.dropWhile isPySpace).reverse.dropWhile isPySpace).reverse)

/-- `text.strip() == ""`, the blank-text test used by both batch loops. -/
def pyBlank (s : String) : Bool := pyStrip s == ""

/-- First `n` characters, Python `s[:n]`. -/
def pyTake (n : Nat) (s : String) : String := String.mk (s.data.take n)

/-- Model of Python `str.lower()` on one character, restricted to the
character ranges this script actually feeds it: ASCII letters, the base
Cyrillic block А..Я (U+0410..U+042F, lowered by adding 32), and the
individual letters Ё, І, Ї, Є, Ґ. Everything else is left unchanged. -/
def pyLowerChar (c : Char) : Char :=
  if 'A' ≤ c ∧ c ≤ 'Z' then Char.ofNat (c.toNat + 32)
  else if 'А' ≤ c ∧ c ≤ 'Я' then Char.ofNat (c.toNat + 32)
  else if c = 'Ё' then 'ё'
  else if c = 'І' then 'і'
  else if c = 'Ї' then 'ї'
  else if c = 'Є' then 'є'
  else if c = 'Ґ' then 'ґ'
  else c

/-- Model of Python `str.lower()`. -/
def pyLower (s : String) : String := String.mk (s.data.map pyLowerChar)

/-- The literal character set of line 128 of the script:
`'абвгдежзийклмнопрстуфхцчшщъыьэюя'` (the Russian lowercase alphabet
without ё). -/
def ru_lower_alphabet : List Char :=
  "абвгдежзийклмнопрстуфхцчшщъыьэюя".data

/-- Language auto-detection used at lines 128, 157 and 196:
`'uk' if any(c in 'абвгд…юя' for c in text.lower()) else 'en'`. -/
def detect_lang (text : String) : String :=
  if (pyLower text).data.any (fun c => decide (c ∈ ru_lower_alphabet)) then "uk"
  else "en"

/-- The hardcoded XTTS v2 language list (lines 95 and 131). -/
def xtts_supported_languages : List String :=
  ["en", "es", "fr", "de", "it", "pt", "pl", "tr", "ru", "nl", "cs",
   "ar", "zh-cn", "hu", "ko", "ja", "hi"]

/-- `_pick_language` (lines 224–233): keep a supported language; map
`"uk"` to `"ru"` when supported (else `"en"`); default to `"en"`. -/
def pick_language (supported_languages : List String) (desired_lang : String) : String :=
  if desired_lang ∈ supported_languages then desired_lang
  else if desired_lang = "uk" then
    (if "ru" ∈ supported_languages then "ru" else "en")
  else "en"

/-- The speed validation of line 274: `speed = max(0.5, min(2.0, speed))`. -/
def clampSpeed (speed : Rat) : Rat := max (1 / 2 : Rat) (min 2 speed)

/-- The language chosen by the primary-TTS branch of
`simple_text_to_speech` (lines 128–138): detect, then substitute `uk`
by `ru` (the hardcoded list contains `ru`), else keep the detected
language when supported, else `en`. -/
def xtts_lang_for (text : String) : String :=
  let detected_lang := detect_lang text
  if detected_lang = "uk" then
    (if "ru" ∈ xtts_supported_languages then "ru" else "en")
  else
    (if detected_lang ∈ xtts_supported_languages then detected_lang else "en")

/-- Decimal digit as a character (`0` ↦ `'0'`, …, `9` ↦ `'9'`). -/
def digitChar (d : Nat) : Char := Char.ofNat (48 + d)

/-- Decimal digits of `n`, least significant first, as characters. -/
def decimalDigitsLE (n : Nat) : List Char := (Nat.digits 10 n).map digitChar

/-- Python `f"{n:04d}"` for a natural `n`: decimal representation,
zero-padded on the left to at least four characters. -/
def format04d (n : Nat) : String :=
  let ds := decimalDigitsLE n
  String.mk ((ds ++ List.replicate (4 - ds.length) '0').reverse)

/-- The batch output filename `f"audio_{idx:04d}.wav"`
(lines 335 and 397). -/
def output_filename (idx : Nat) : String :=
  "audio_" ++ format04d idx ++ ".wav"

/-- Inverse of `digitChar`, used to decode filenames in proofs. -/
def charToDigit (c : Char) : Nat := c.toNat - 48

/-- Decode a zero-padded decimal string back to the natural it encodes. -/
def decodePadded (s : String) : Nat :=
  Nat.ofDigits 10 (s.data.reverse.map charToDigit)

/-- Outcome of one external engine call (`tts.tts_to_file`, `gTTS.save`,
pyttsx3 `save_to_file`/`runAndWait`): either it raises an exception whose
message is the `String`, or it returns, leaving the filesystem in a new
state. -/
def EngineCall : Type := Except String FS

/-- The parts of `VoiceCloner.__init__` state and of the external world
that `clone_voice_from_sample` reads: the `primary_engine` marker,
whether `self.tts` is loaded, the supported-language list, the current
filesystem, and the behaviour of
`self.tts.tts_to_file(text, speaker_wav, language, speed, file_path)`. -/
structure CloneEnv where
  primary_engine : Option String
  tts_loaded : Bool
  supported_languages : List String
  fs : FS
  tts_clone : String → String → String → Rat → String → EngineCall

/-- The observable messages printed by `clone_voice_from_sample`
(lines 250–298) that the spec treats as the caller-visible report. -/
inductive CloneLog where
  | cloningUnavailable
  | missingVoiceReference (path : String)
  | languageSubstituted (requested selected : String)
  | savedReport (path : String) (size : Nat)
  | fileNotCreated
  | cloneError (msg : String)
  deriving DecidableEq

/-- Result of one `clone_voice_from_sample` call: the returned boolean,
whether the engine (`tts_to_file`) was actually invoked and with which
language/speed, the printed report, and the filesystem afterwards. -/
structure CloneResult where
  ok : Bool
  engineCalled : Bool
  dispatchedLang : Option String
  dispatchedSpeed : Option Rat
  log : List CloneLog
  fs : FS

/-- `clone_voice_from_sample` (lines 235–298).  Checks Coqui TTS
availability, then existence of the reference file (returning `False`
with no engine call when missing), picks the language via
`_pick_language` (printing a substitution warning when it differs),
clamps the speed, invokes `tts_to_file`, and afterwards returns `True`
iff the output file exists (any size); an exception from the engine is
caught and `False` returned. -/
def clone_voice_from_sample (env : CloneEnv) (text speaker_wav_path output_path language : String)
    (speed : Rat) : CloneResult :=
  if ¬ (env.primary_engine = some "TTS" ∧ env.tts_loaded = true) then
    { ok := false, engineCalled := false, dispatchedLang := none, dispatchedSpeed := none,
      log := [.cloningUnavailable], fs := env.fs }
  else if (env.fs speaker_wav_path).isNone then
    { ok := false, engineCalled := false, dispatchedLang := none, dispatchedSpeed := none,
      log := [.missingVoiceReference speaker_wav_path], fs := env.fs }
  else
    let selected_lang := pick_language env.supported_languages language
    let substLog : List CloneLog :=
      if selected_lang ≠ language then [.languageSubstituted language selected_lang] else []
    let speed2 := clampSpeed speed
    match env.tts_clone text speaker_wav_path selected_lang speed2 output_path with
    | .error e =>
      { ok := false, engineCalled := true, dispatchedLang := some selected_lang,
        dispatchedSpeed := some speed2, log := substLog ++ [.cloneError e], fs := env.fs }
    | .ok fs2 =>
      match fs2 output_path with
      | some size =>
        { ok := true, engineCalled := true, dispatchedLang := some selected_lang,
          dispatchedSpeed := some speed2, log := substLog ++ [.savedReport output_path size],
          fs := fs2 }
      | none =>
        { ok := false, engineCalled := true, dispatchedLang := some selected_lang,
          dispatchedSpeed := some speed2, log := substLog ++ [.fileNotCreated], fs := fs2 }

/-- State and external behaviour read by `simple_text_to_speech` and
`_fallback_tts`: availability flags of the importable backends, the
`primary_engine` marker, the loaded engine objects, and one oracle per
distinct external call site. -/
structure TtsEnv where
  primary_engine : Option String
  tts_loaded : Bool
  tts_engine_loaded : Bool
  gtts_available : Bool
  pyttsx3_available : Bool
  fs : FS
  tts_speak : String → String → String → EngineCall
  gtts_save : String → String → String → EngineCall
  tts_engine_save : String → String → EngineCall
  pyttsx3_fallback_save : String → String → EngineCall

/-- One engine invocation, as recorded for the dispatch trace. -/
inductive Attempt where
  | primaryTTS (text lang path : String)
  | primaryGTTS (text lang path : String)
  | primaryPYTTSX3 (text path : String)
  | fallbackGTTS (text lang path : String)
  | fallbackPYTTSX3 (text path : String)
  deriving DecidableEq

/-- Is this attempt one of the two `_fallback_tts` branches? -/
def Attempt.isFallback : Attempt → Bool
  | .fallbackGTTS _ _ _ => true
  | .fallbackPYTTSX3 _ _ => true
  | _ => false

/-- The observable messages printed by `simple_text_to_speech` and
`_fallback_tts` that the spec treats as the caller-visible report. -/
inductive TtsLog where
  | saved (path : String)
  | sizeNote (size : Nat)
  | maybeEmptyWarning
  | noEngine
  | genError (msg : String)
  | fallbackUsedGTTS (path : String)
  | fallbackEmpty
  | fallbackUsedPYTTSX3 (path : String)
  | fallbackError (msg : String)
  deriving DecidableEq

/-- Result of `simple_text_to_speech` / `_fallback_tts`: the returned
boolean, the trace of engine invocations in order, the printed report,
and the filesystem afterwards. -/
structure TtsResult where
  ok : Bool
  attempts : List Attempt
  log : List TtsLog
  fs : FS

/-- `_fallback_tts` (lines 188–222).  Tries GTTS when it is available and
was not the primary: on success it keeps the output only when its size
is strictly above 1000 bytes; an unwritten file or an exception yields
`False`.  Otherwise tries pyttsx3 (fresh `pyttsx3.init()` engine) when
available and not primary, returning `True` on any non-raising call.
With no applicable backend it returns `False`.  At most one backend is
ever attempted. -/
def fallback_tts (env : TtsEnv) (text output_path : String) : TtsResult :=
  if env.gtts_available = true ∧ env.primary_engine ≠ some "GTTS" then
    let lang := detect_lang text
    match env.gtts_save text lang output_path with
    | .error e =>
      { ok := false, attempts := [.fallbackGTTS text lang output_path],
        log := [.fallbackError e], fs := env.fs }
    | .ok fs2 =>
      match fs2 output_path with
      | some size =>
        if 1000 < size then
          { ok := true, attempts := [.fallbackGTTS text lang output_path],
            log := [.sizeNote size, .fallbackUsedGTTS output_path], fs := fs2 }
        else
          { ok := false, attempts := [.fallbackGTTS text lang output_path],
            log := [.sizeNote size, .fallbackEmpty], fs := fs2 }
      | none =>
        { ok := false, attempts := [.fallbackGTTS text lang output_path],
          log := [], fs := fs2 }
  else if env.pyttsx3_available = true ∧ env.primary_engine ≠ some "PYTTSX3" then
    match env.pyttsx3_fallback_save text output_path with
    | .error e =>
      { ok := false, attempts := [.fallbackPYTTSX3 text output_path],
        log := [.fallbackError e], fs := env.fs }
    | .ok fs2 =>
      { ok := true, attempts := [.fallbackPYTTSX3 text output_path],
        log := [.fallbackUsedPYTTSX3 output_path], fs := fs2 }
  else
    { ok := false, attempts := [], log := [], fs := env.fs }

/-- `simple_text_to_speech` (lines 110–186).  Dispatches on
`primary_engine`: the TTS branch detects/substitutes a language and calls
`tts_to_file` (re-raising any exception to the outer handler); the GTTS
branch detects a language, saves, then checks existence and size, only
warning (still returning `True`) below 1000 bytes; the PYTTSX3 branch
saves via the loaded engine; with no engine it returns `False` directly.
Any exception is caught by the outer handler, which prints the error and
delegates to `_fallback_tts`. -/
def simple_text_to_speech (env : TtsEnv) (text output_path : String) : TtsResult :=
  if env.primary_engine = some "TTS" ∧ env.tts_loaded = true then
    let lang := xtts_lang_for text
    match env.tts_speak text lang output_path with
    | .ok fs2 =>
      { ok := true, attempts := [.primaryTTS text lang output_path],
        log := [.saved output_path], fs := fs2 }
    | .error e =>
      let fb := fallback_tts env text output_path
      { ok := fb.ok, attempts := .primaryTTS text lang output_path :: fb.attempts,
        log := .genError e :: fb.log, fs := fb.fs }
  else if env.primary_engine = some "GTTS" then
    let lang := detect_lang text
    match env.gtts_save text lang output_path with
    | .ok fs2 =>
      match fs2 output_path with
      | some size =>
        { ok := true, attempts := [.primaryGTTS text lang output_path],
          log := .sizeNote size ::
            ((if size < 1000 then [TtsLog.maybeEmptyWarning] else []) ++ [.saved output_path]),
          fs := fs2 }
      | none =>
        { ok := true, attempts := [.primaryGTTS text lang output_path],
          log := [.saved output_path], fs := fs2 }
    | .error e =>
      let fb := fallback_tts env text output_path
      { ok := fb.ok, attempts := .primaryGTTS text lang output_path :: fb.attempts,
        log := .genError e :: fb.log, fs := fb.fs }
  else if env.primary_engine = some "PYTTSX3" ∧ env.tts_engine_loaded = true then
    match env.tts_engine_save text output_path with
    | .ok fs2 =>
      { ok := true, attempts := [.primaryPYTTSX3 text output_path],
        log := [.saved output_path], fs := fs2 }
    | .error e =>
      let fb := fallback_tts env text output_path
      { ok := fb.ok, attempts := .primaryPYTTSX3 text output_path :: fb.attempts,
        log := .genError e :: fb.log, fs := fb.fs }
  else
    { ok := false, attempts := [], log := [.noEngine], fs := env.fs }

/-- One dispatcher invocation made by a batch loop: either the cloning
dispatcher `clone_voice_from_sample` or the plain `simple_text_to_speech`. -/
inductive DispatchCall where
  | cloneCall (text output_path : String)
  | simpleCall (text output_path : String)
  deriving DecidableEq

/-- Is this call an invocation of the cloning dispatcher? -/
def DispatchCall.isCloneCall : DispatchCall → Bool
  | .cloneCall _ _ => true
  | .simpleCall _ _ => false

/-- The text argument of a dispatcher invocation. -/
def DispatchCall.textOf : DispatchCall → String
  | .cloneCall t _ => t
  | .simpleCall t _ => t

/-- The aggregate report built by `process_csv_file` /
`process_json_file`: `results["success"]` (output paths),
`results["failed"]` (formatted `Row idx: text[:30]` / `Item idx:
text[:30]` strings), plus the trace of dispatcher invocations made. -/
structure BatchReport where
  success : List String
  failed : List String
  calls : List DispatchCall

/-- The batch-run parameters shared by all items: the filesystem (read by
the `os.path.exists(speaker_wav_path)` test of the loop), the optional
`speaker_wav_path` argument, the output directory, and the per-item
outcomes of the two dispatchers, abstracted as boolean-returning
functions of (text, output path) exactly as the loop consumes them. -/
structure BatchEnv where
  fs : FS
  speaker_wav_path : Option String
  output_dir : String
  clone : String → String → Bool
  simple : String → String → Bool

/-- The engine-selection condition of lines 341/403:
`if speaker_wav_path and os.path.exists(speaker_wav_path)` — an unset or
empty path, or a non-existing file, routes to plain synthesis. -/
def useCloning (env : BatchEnv) : Bool :=
  match env.speaker_wav_path with
  | some w => w ≠ "" && (env.fs w).isSome
  | none => false

/-- One non-skipped loop iteration of either batch loop (lines 335–349 /
397–411): build the output path from the index, dispatch to cloning or
plain synthesis, and append to `success` or `failed`. -/
def batchItem (env : BatchEnv) (idx : Nat) (text failLabel : String) (rest : BatchReport) :
    BatchReport :=
  let output_path := env.output_dir ++ "/" ++ output_filename idx
  let call : DispatchCall :=
    if useCloning env then .cloneCall text output_path else .simpleCall text output_path
  let ok : Bool := if useCloning env then env.clone text output_path else env.simple text output_path
  if ok then
    { success := output_path :: rest.success, failed := rest.failed, calls := call :: rest.calls }
  else
    { success := rest.success,
      failed := (failLabel ++ " " ++ Nat.repr idx ++ ": " ++ pyTake 30 text) :: rest.failed,
      calls := call :: rest.calls }

/-- The loop of `process_csv_file` (lines 330–349) over the
`str(row[text_column])` values, starting at row index `idx`.  A row is
skipped iff its text is blank: after `str(...)`, `pd.isna(text)` is
always false, so the line-332 test reduces to `text.strip() == ""`. -/
def process_rows (env : BatchEnv) : Nat → List String → BatchReport
  | _, [] => { success := [], failed := [], calls := [] }
  | idx, text :: rest =>
    if pyBlank text then process_rows env (idx + 1) rest
    else batchItem env idx text "Row" (process_rows env (idx + 1) rest)

/-- `process_csv_file` (lines 300–356), reduced to its loop: CSV loading,
the column check and `mkdir` are external I/O; `texts` is the list of
`str(row[text_column])` values in row order. -/
def process_csv_file (env : BatchEnv) (texts : List String) : BatchReport :=
  process_rows env 0 texts

/-- The loop of `process_json_file` (lines 389–411) over the items,
starting at index `idx`.  An item is `none` when `text_field not in item`
(skipped at line 390); otherwise it carries `str(item[text_field])`,
skipped at line 394 iff blank. -/
def process_json_items (env : BatchEnv) : Nat → List (Option String) → BatchReport
  | _, [] => { success := [], failed := [], calls := [] }
  | idx, none :: rest => process_json_items env (idx + 1) rest
  | idx, some text :: rest =>
    if pyBlank text then process_json_items env (idx + 1) rest
    else batchItem env idx text "Item" (process_json_items env (idx + 1) rest)

/-- `process_json_file` (lines 358–418), reduced to its loop: JSON
loading and `mkdir` are external I/O; an item is `none` when the text
field is missing, else the `str(...)` of its value. -/
def process_json_file (env : BatchEnv) (items : List (Option String)) : BatchReport :=
  process_json_items env 0 items

/-- Number of JSON items skipped because their text is blank. -/
def jsonBlankCount (items : List (Option String)) : Nat :=
  (items.filter (fun it => match it with | some t => pyBlank t | none => false)).length

/-- Number of JSON items skipped because the text field is missing. -/
def jsonMissingCount (items : List (Option String)) : Nat :=
  (items.filter (fun it => it.isNone)).length

/-! ### Concrete fixtures used to instantiate the theorems -/

/-- Cloning-engine oracle that always succeeds, writing `size` bytes at
the requested output path. -/
def cloneWrites (size : Nat) : String → String → String → Rat → String → EngineCall :=
  fun _ _ _ _ path => .ok (fsWith path size fs0)

/-- Plain-synthesis oracle (three string arguments) that always succeeds,
writing `size` bytes at the requested output path. -/
def speakWrites (size : Nat) : String → String → String → EngineCall :=
  fun _ _ path => .ok (fsWith path size fs0)

/-- Plain-synthesis oracle that always raises `msg`. -/
def speakRaises (msg : String) : String → String → String → EngineCall :=
  fun _ _ _ => .error msg

/-- Two-argument save oracle that always raises `msg`. -/
def saveRaises (msg : String) : String → String → EngineCall :=
  fun _ _ => .error msg

/-- A filesystem holding only the reference recording `ref.wav`. -/
def refFS : FS := fsWith "ref.wav" 50000 fs0

/-- Clone environment whose engine writes a 20000-byte output. -/
def cloneEnvOk : CloneEnv :=
  { primary_engine := some "TTS", tts_loaded := true,
    supported_languages := xtts_supported_languages, fs := refFS,
    tts_clone := cloneWrites 20000 }

/-- Clone environment whose engine reports success but writes a
zero-byte output file. -/
def cloneEnvZero : CloneEnv :=
  { cloneEnvOk with tts_clone := cloneWrites 0 }

/-- Clone environment over the empty filesystem (the reference file does
not exist). -/
def cloneEnvNoRef : CloneEnv :=
  { cloneEnvOk with fs := fs0 }

/-- Plain-synthesis environment in the repository's main configuration
(primary Coqui TTS, GTTS importable as fallback) where the primary raises
on every call and the GTTS fallback raises as well. -/
def ttsEnvBothFail : TtsEnv :=
  { primary_engine := some "TTS", tts_loaded := true, tts_engine_loaded := false,
    gtts_available := true, pyttsx3_available := false, fs := fs0,
    tts_speak := speakRaises "primary boom", gtts_save := speakRaises "fallback boom",
    tts_engine_save := saveRaises "unused", pyttsx3_fallback_save := saveRaises "unused" }

/-- Batch environment with a voice reference path set but no such file on
the filesystem; the dispatchers are abstracted as always succeeding. -/
def batchEnvMissingRef : BatchEnv :=
  { fs := fs0, speaker_wav_path := some "ref.wav", output_dir := "output_audio",
    clone := fun _ _ => true, simple := fun _ _ => true }

/-! ### Shared helper lemmas -/

/-- When cloning is available and the reference file exists,
`clone_voice_from_sample` reaches the engine call. -/
theorem clone_run_engineCalled (env : CloneEnv) (text spk out lang : String) (speed : Rat)
    (sz : Nat) (hp : env.primary_engine = some "TTS") (hl : env.tts_loaded = true)
    (hs : env.fs spk = some sz) :
    (clone_voice_from_sample env text spk out lang speed).engineCalled = true := by
  unfold clone_voice_from_sample
  rw [if_neg (by simp [hp, hl]), if_neg (by simp [hs])]
  dsimp only
  split
  · rfl
  · split <;> rfl

/-- When cloning runs, the dispatched speed is always the clamped speed. -/
theorem clone_run_dispatchedSpeed (env : CloneEnv) (text spk out lang : String) (speed : Rat)
    (sz : Nat) (hp : env.primary_engine = some "TTS") (hl : env.tts_loaded = true)
    (hs : env.fs spk = some sz) :
    (clone_voice_from_sample env text spk out lang speed).dispatchedSpeed =
      some (clampSpeed speed) := by
  unfold clone_voice_from_sample
  rw [if_neg (by simp [hp, hl]), if_neg (by simp [hs])]
  dsimp only
  split
  · rfl
  · split <;> rfl

/-- When cloning runs, the dispatched language is always the one chosen
by `_pick_language`. -/
theorem clone_run_dispatchedLang (env : CloneEnv) (text spk out lang : String) (speed : Rat)
    (sz : Nat) (hp : env.primary_engine = some "TTS") (hl : env.tts_loaded = true)
    (hs : env.fs spk = some sz) :
    (clone_voice_from_sample env text spk out lang speed).dispatchedLang =
      some (pick_language env.supported_languages lang) := by
  unfold clone_voice_from_sample
  rw [if_neg (by simp [hp, hl]), if_neg (by simp [hs])]
  dsimp only
  split
  · rfl
  · split <;> rfl

/-- When cloning runs and `_pick_language` changed the language, the
substitution warning is printed. -/
theorem clone_run_substitution_reported (env : CloneEnv) (text spk out lang : String)
    (speed : Rat) (sz : Nat) (hp : env.primary_engine = some "TTS") (hl : env.tts_loaded = true)
    (hs : env.fs spk = some sz)
    (hsub : pick_language env.supported_languages lang ≠ lang) :
    CloneLog.languageSubstituted lang (pick_language env.supported_languages lang) ∈
      (clone_voice_from_sample env text spk out lang speed).log := by
  unfold clone_voice_from_sample
  rw [if_neg (by simp [hp, hl]), if_neg (by simp [hs])]
  dsimp only
  split
  · simp [hsub]
  · split <;> simp [hsub]

/-! ### Claims -/

/-- C7: for every requested language that is in the engine's supported
list, `_pick_language` returns that language unchanged. -/
theorem pick_language_supported_identity (supported : List String) (lang : String)
    (h : lang ∈ supported) : pick_language supported lang = lang := by
  simp [pick_language, h]

theorem pick_language_supported_identity_witness :
    "ru" ∈ xtts_supported_languages ∧
      pick_language xtts_supported_languages "ru" = "ru" :=
  ⟨by decide, pick_language_supported_identity xtts_supported_languages "ru" (by decide)⟩

/-- C6: the language negotiator applies the fixed substitution table
deterministically — `"uk"` resolves to `"ru"` whenever `"ru"` is
supported and `"uk"` is not; any other unsupported language resolves to
the fixed default `"en"`; and when cloning actually runs with language
`"uk"` against the XTTS list (which has `"ru"` but not `"uk"`), the
engine is invoked with `"ru"` and the substitution appears in the
caller-visible report. -/
theorem uk_language_substitution :
    (∀ supported : List String, "uk" ∉ supported → "ru" ∈ supported →
      pick_language supported "uk" = "ru")
    ∧ (∀ (supported : List String) (lang : String), lang ∉ supported → lang ≠ "uk" →
      pick_language supported lang = "en")
    ∧ (∀ (env : CloneEnv) (text spk out : String) (speed : Rat) (sz : Nat),
      env.primary_engine = some "TTS" → env.tts_loaded = true →
      env.fs spk = some sz → env.supported_languages = xtts_supported_languages →
      (clone_voice_from_sample env text spk out "uk" speed).dispatchedLang = some "ru" ∧
      CloneLog.languageSubstituted "uk" "ru" ∈
        (clone_voice_from_sample env text spk out "uk" speed).log) := by
  refine ⟨fun supported hnot hru => ?_, fun supported lang hnot hne => ?_,
    fun env text spk out speed sz hp hl hs hsup => ?_⟩
  · simp [pick_language, hnot, hru]
  · simp [pick_language, hnot, hne]
  · have hpick : pick_language env.supported_languages "uk" = "ru" := by
      rw [hsup]; decide
    constructor
    · rw [clone_run_dispatchedLang env text spk out "uk" speed sz hp hl hs, hpick]
    · have := clone_run_substitution_reported env text spk out "uk" speed sz hp hl hs
        (by rw [hpick]; decide)
      rwa [hpick] at this

theorem uk_language_substitution_witness :
    (clone_voice_from_sample cloneEnvOk "hello" "ref.wav" "out.wav" "uk" 1).dispatchedLang =
        some "ru" ∧
      CloneLog.languageSubstituted "uk" "ru" ∈
        (clone_voice_from_sample cloneEnvOk "hello" "ref.wav" "out.wav" "uk" 1).log :=
  uk_language_substitution.2.2 cloneEnvOk "hello" "ref.wav" "out.wav" 1 50000
    rfl rfl rfl rfl

/-- C5: the speed actually dispatched to the engine is
`max(0.5, min(2.0, speed))` — values below 0.5 are clamped to 0.5,
values above 2.0 are clamped to 2.0, and values inside [0.5, 2.0] pass
through unchanged; whenever the cloning engine is invoked, the speed it
receives is exactly this clamped value. -/
theorem speed_clamping :
    (∀ s : Rat, s < 1 / 2 → clampSpeed s = 1 / 2)
    ∧ (∀ s : Rat, 2 < s → clampSpeed s = 2)
    ∧ (∀ s : Rat, 1 / 2 ≤ s → s ≤ 2 → clampSpeed s = s)
    ∧ (∀ (env : CloneEnv) (text spk out lang : String) (s : Rat) (sz : Nat),
      env.primary_engine = some "TTS" → env.tts_loaded = true → env.fs spk = some sz →
      (clone_voice_from_sample env text spk out lang s).dispatchedSpeed =
        some (clampSpeed s)) := by
  refine ⟨fun s h => ?_, fun s h => ?_, fun s h1 h2 => ?_,
    fun env text spk out lang s sz hp hl hs =>
      clone_run_dispatchedSpeed env text spk out lang s sz hp hl hs⟩
  · have hs2 : s ≤ 2 := le_of_lt (lt_trans h (by norm_num))
    rw [clampSpeed, min_eq_right hs2, max_eq_left (le_of_lt h)]
  · rw [clampSpeed, min_eq_left (le_of_lt h), max_eq_right (by norm_num)]
  · rw [clampSpeed, min_eq_right h2, max_eq_right h1]

theorem speed_clamping_witness :
    clampSpeed (1 / 4) = 1 / 2 ∧ clampSpeed 3 = 2 ∧ clampSpeed 1 = 1 ∧
      (clone_voice_from_sample cloneEnvOk "hello" "ref.wav" "out.wav" "en" 3).dispatchedSpeed =
        some (clampSpeed 3) :=
  ⟨speed_clamping.1 (1 / 4) (by norm_num), speed_clamping.2.1 3 (by norm_num),
    speed_clamping.2.2.1 1 (by norm_num) (by norm_num),
    speed_clamping.2.2.2 cloneEnvOk "hello" "ref.wav" "out.wav" "en" 3 50000 rfl rfl rfl⟩

/-- C10: language auto-detection is total (always `"uk"` or `"en"`),
returns `"uk"` exactly when the lowercased text contains a character of
the fixed set `'абвгдежзийклмнопрстуфхцчшщъыьэюя'`, and classifies a
text whose only Cyrillic letters are і, ї, є, ґ, ё as `"en"`. -/
theorem detect_lang_characterization :
    (∀ text : String, detect_lang text = "uk" ∨ detect_lang text = "en")
    ∧ (∀ text : String, detect_lang text = "uk" ↔
        ∃ c ∈ (pyLower text).data, c ∈ ru_lower_alphabet)
    ∧ detect_lang "І, Ї, Є, Ґ, Ё!" = "en" := by
  refine ⟨fun text => ?_, fun text => ?_, by decide⟩
  · unfold detect_lang
    split
    · exact Or.inl rfl
    · exact Or.inr rfl
  · constructor
    · intro h
      unfold detect_lang at h
      split at h
      · next hany => simpa using hany
      · exact absurd h (by decide)
    · intro hex
      unfold detect_lang
      rw [if_pos]
      simpa using hex

theorem detect_lang_characterization_witness :
    detect_lang "hello" = "uk" ∨ detect_lang "hello" = "en" :=
  detect_lang_characterization.1 "hello"

/-! Helper lemmas for the filename scheme. -/

/-- `charToDigit` inverts `digitChar` on decimal digits. -/
theorem charToDigit_digitChar (d : Nat) (hd : d < 10) :
    charToDigit (digitChar d) = d := by
  interval_cases d <;> rfl

/-- A run of zero digits contributes nothing. -/
theorem ofDigits_replicate_zero (k : Nat) :
    Nat.ofDigits 10 (List.replicate k 0) = 0 := by
  induction k with
  | zero => rfl
  | succ n ih => rw [List.replicate_succ, Nat.ofDigits_cons, ih]

/-- Mapping `charToDigit` over the digit characters recovers the digits. -/
theorem map_charToDigit_decimalDigitsLE (n : Nat) :
    (decimalDigitsLE n).map charToDigit = Nat.digits 10 n := by
  unfold decimalDigitsLE
  rw [List.map_map]
  have h : ∀ d ∈ Nat.digits 10 n, (charToDigit ∘ digitChar) d = d := fun d hd =>
    charToDigit_digitChar d (Nat.digits_lt_base (by norm_num) hd)
  rw [List.map_congr_left h]
  simp

/-- Decoding a zero-padded filename digit block recovers the index. -/
theorem decodePadded_format04d (n : Nat) : decodePadded (format04d n) = n := by
  unfold decodePadded format04d
  dsimp only
  rw [List.reverse_reverse, List.map_append, map_charToDigit_decimalDigitsLE,
    List.map_replicate]
  rw [show charToDigit '0' = 0 from rfl]
  rw [Nat.ofDigits_append, Nat.ofDigits_digits, ofDigits_replicate_zero, mul_zero, add_zero]

/-- The zero-padded digit block determines the index. -/
theorem format04d_injective : Function.Injective format04d := by
  intro i j h
  have h2 := congrArg decodePadded h
  rwa [decodePadded_format04d, decodePadded_format04d] at h2

/-- C9: the batch output filename is a zero-padded sequential name
derived only from the item index — the naming function is deterministic
(equal indexes give equal names, hence identical runs lay out identical
files) and injective (distinct indexes never share a filename, even
inside the same output directory). -/
theorem output_filename_deterministic_injective :
    (∀ i j : Nat, i = j → output_filename i = output_filename j)
    ∧ Function.Injective output_filename
    ∧ (∀ (dir : String) (i j : Nat), i ≠ j →
        dir ++ "/" ++ output_filename i ≠ dir ++ "/" ++ output_filename j) := by
  have hinj : Function.Injective output_filename := by
    intro i j h
    apply format04d_injective
    have hd : (output_filename i).data = (output_filename j).data := congrArg String.data h
    rw [output_filename, output_filename, String.data_append, String.data_append,
      String.data_append, String.data_append, List.append_assoc, List.append_assoc] at hd
    exact String.ext (List.append_cancel_right (List.append_cancel_left hd))
  refine ⟨fun i j h => by rw [h], hinj, fun dir i j hne heq => ?_⟩
  have hd := congrArg String.data heq
  rw [String.data_append, String.data_append] at hd
  exact hne (hinj (String.ext (List.append_cancel_left hd)))

theorem output_filename_deterministic_injective_witness :
    (5 : Nat) ≠ 7 ∧
      "output_audio" ++ "/" ++ output_filename 5 ≠ "output_audio" ++ "/" ++ output_filename 7 :=
  ⟨by decide,
    output_filename_deterministic_injective.2.2 "output_audio" 5 7 (by decide)⟩

/-! Helper lemmas for the batch loops. -/

/-- A processed item adds exactly one entry to `success` or `failed`. -/
theorem batchItem_lengths (env : BatchEnv) (idx : Nat) (text failLabel : String)
    (rest : BatchReport) :
    (batchItem env idx text failLabel rest).success.length +
        (batchItem env idx text failLabel rest).failed.length =
      rest.success.length + rest.failed.length + 1 := by
  unfold batchItem
  dsimp only
  split <;> split <;> (simp only [List.length_cons]; omega)

/-- A processed item prepends exactly one dispatcher call, carrying the
item's text. -/
theorem batchItem_calls_textOf (env : BatchEnv) (idx : Nat) (text failLabel : String)
    (rest : BatchReport) :
    ∃ c : DispatchCall, (batchItem env idx text failLabel rest).calls = c :: rest.calls ∧
      c.textOf = text := by
  unfold batchItem
  dsimp only
  split <;> split <;> exact ⟨_, rfl, rfl⟩

/-- When the cloning condition of the loop is false, the dispatcher call
made for an item is plain synthesis. -/
theorem batchItem_calls_simple (env : BatchEnv) (idx : Nat) (text failLabel : String)
    (rest : BatchReport) (h : useCloning env = false) :
    (batchItem env idx text failLabel rest).calls =
      DispatchCall.simpleCall text (env.output_dir ++ "/" ++ output_filename idx) ::
        rest.calls := by
  unfold batchItem
  dsimp only
  simp only [h, Bool.false_eq_true, if_false]
  split <;> rfl

/-- CSV partition invariant, generalized over the starting index. -/
theorem process_rows_partition (env : BatchEnv) (i0 : Nat) (texts : List String) :
    (process_rows env i0 texts).success.length + (process_rows env i0 texts).failed.length +
        (texts.filter pyBlank).length = texts.length := by
  induction texts generalizing i0 with
  | nil => rfl
  | cons t rest ih =>
    simp only [process_rows]
    by_cases h : pyBlank t
    · rw [if_pos h, List.filter_cons_of_pos h]
      have hr := ih (i0 + 1)
      simp only [List.length_cons]
      omega
    · rw [if_neg h, List.filter_cons_of_neg (by simpa using h)]
      have h2 := batchItem_lengths env i0 t "Row" (process_rows env (i0 + 1) rest)
      have hr := ih (i0 + 1)
      simp only [List.length_cons]
      omega

/-- Counting lemmas for the JSON skip categories. -/
theorem jsonBlankCount_cons_none (rest : List (Option String)) :
    jsonBlankCount (none :: rest) = jsonBlankCount rest := by
  simp [jsonBlankCount, List.filter_cons]

theorem jsonBlankCount_cons_some (t : String) (rest : List (Option String)) :
    jsonBlankCount (some t :: rest) =
      (if pyBlank t then 1 else 0) + jsonBlankCount rest := by
  by_cases h : pyBlank t
  · simp [jsonBlankCount, List.filter_cons, h]
    omega
  · simp [jsonBlankCount, List.filter_cons, h]

theorem jsonMissingCount_cons_none (rest : List (Option String)) :
    jsonMissingCount (none :: rest) = jsonMissingCount rest + 1 := by
  simp [jsonMissingCount, List.filter_cons]

theorem jsonMissingCount_cons_some (t : String) (rest : List (Option String)) :
    jsonMissingCount (some t :: rest) = jsonMissingCount rest := by
  simp [jsonMissingCount, List.filter_cons]

/-- JSON partition invariant, generalized over the starting index. -/
theorem process_json_items_partition (env : BatchEnv) (i0 : Nat)
    (items : List (Option String)) :
    (process_json_items env i0 items).success.length +
        (process_json_items env i0 items).failed.length +
        jsonBlankCount items + jsonMissingCount items = items.length := by
  induction items generalizing i0 with
  | nil => rfl
  | cons it rest ih =>
    match it with
    | none =>
      simp only [process_json_items, jsonBlankCount_cons_none, jsonMissingCount_cons_none,
        List.length_cons]
      have hr := ih (i0 + 1)
      omega
    | some t =>
      by_cases h : pyBlank t
      · simp only [process_json_items, jsonBlankCount_cons_some, jsonMissingCount_cons_some,
          List.length_cons, h, if_pos]
        have hr := ih (i0 + 1)
        omega
      · simp only [process_json_items, jsonBlankCount_cons_some, jsonMissingCount_cons_some,
          List.length_cons]
        rw [if_neg h, if_neg h]
        have h2 := batchItem_lengths env i0 t "Item" (process_json_items env (i0 + 1) rest)
        have hr := ih (i0 + 1)
        omega

/-- C2 (amended): in every CSV batch run, each row is either skipped as
blank or appended to exactly one of the two sequences, so
`len(successes) + len(failures) + skippedBlankCount = totalInputItems`;
in every JSON batch run the same holds once the items whose text field is
missing (also skipped) are counted as well. -/
theorem batch_report_partition :
    (∀ (env : BatchEnv) (texts : List String),
      (process_csv_file env texts).success.length +
          (process_csv_file env texts).failed.length +
          (texts.filter pyBlank).length = texts.length)
    ∧ (∀ (env : BatchEnv) (items : List (Option String)),
      (process_json_file env items).success.length +
          (process_json_file env items).failed.length +
          jsonBlankCount items + jsonMissingCount items = items.length) :=
  ⟨fun env texts => process_rows_partition env 0 texts,
    fun env items => process_json_items_partition env 0 items⟩

/-- C2 counterexample: a JSON batch whose single record lacks the text
field produces an empty report, yet the record's text is not blank — so
`len(successes) + len(failures) + skippedBlankCount` is 0, not 1. -/
theorem batch_report_partition_counterexample :
    (process_json_file batchEnvMissingRef [none]).success.length +
        (process_json_file batchEnvMissingRef [none]).failed.length +
        jsonBlankCount [none] ≠ 1 := by
  decide

theorem batch_report_partition_witness :
    (process_csv_file batchEnvMissingRef ["hello"]).success.length +
        (process_csv_file batchEnvMissingRef ["hello"]).failed.length +
        ((["hello"] : List String).filter pyBlank).length = 1 :=
  batch_report_partition.1 batchEnvMissingRef ["hello"]

/-- C1 (amended): when the voice reference file does not exist, the batch
loop routes every item to plain synthesis without ever invoking the
cloning dispatcher, so a successful item is recorded as an ordinary
success with no `MissingVoiceReference` report and no quality-degraded
flag (silent substitution); the `MissingVoiceReference` report only
occurs when `clone_voice_from_sample` itself is called with a missing
file, and that call fails outright with no engine call and no fallback. -/
theorem missing_reference_behavior :
    (∀ (env : BatchEnv) (w : String), env.speaker_wav_path = some w → env.fs w = none →
      ∀ (i0 : Nat) (texts : List String),
        ∀ c ∈ (process_rows env i0 texts).calls, c.isCloneCall = false)
    ∧ (∀ (env : CloneEnv) (text spk out lang : String) (speed : Rat),
      env.primary_engine = some "TTS" → env.tts_loaded = true → env.fs spk = none →
      (clone_voice_from_sample env text spk out lang speed).ok = false ∧
        (clone_voice_from_sample env text spk out lang speed).engineCalled = false ∧
        (clone_voice_from_sample env text spk out lang speed).log =
          [CloneLog.missingVoiceReference spk]) := by
  constructor
  · intro env w hw hfs i0 texts
    have hu : useCloning env = false := by simp [useCloning, hw, hfs]
    induction texts generalizing i0 with
    | nil => intro c hc; simp [process_rows] at hc
    | cons t rest ih =>
      intro c hc
      simp only [process_rows] at hc
      by_cases h : pyBlank t
      · rw [if_pos h] at hc
        exact ih (i0 + 1) c hc
      · rw [if_neg h, batchItem_calls_simple env i0 t "Row" _ hu] at hc
        rcases List.mem_cons.mp hc with h1 | h2
        · rw [h1]; rfl
        · exact ih (i0 + 1) c h2
  · intro env text spk out lang speed hp hl hs
    unfold clone_voice_from_sample
    rw [if_neg (by simp [hp, hl]), if_pos (by simp [hs])]
    exact ⟨rfl, rfl, rfl⟩

/-- C1 counterexample: a cloning batch request (reference path set) whose
reference file does not exist is silently executed as plain synthesis —
the run yields an ordinary success entry, an empty failure list, and a
trace showing that only the plain-synthesis dispatcher ran, so no
`MissingVoiceReference` is reported and nothing in the report flags the
output as quality-degraded rather than a clone. -/
theorem missing_reference_counterexample :
    (process_csv_file batchEnvMissingRef ["hello"]).success =
        ["output_audio/audio_0000.wav"] ∧
      (process_csv_file batchEnvMissingRef ["hello"]).failed = [] ∧
      (process_csv_file batchEnvMissingRef ["hello"]).calls =
        [DispatchCall.simpleCall "hello" "output_audio/audio_0000.wav"] := by
  have h0 : output_filename 0 = "audio_0000.wav" := by
    rw [output_filename, format04d]
    rw [decimalDigitsLE, Nat.digits_zero]
    decide
  have hmain : process_csv_file batchEnvMissingRef ["hello"] =
      { success := ["output_audio" ++ "/" ++ output_filename 0], failed := [],
        calls := [DispatchCall.simpleCall "hello"
          ("output_audio" ++ "/" ++ output_filename 0)] } := rfl
  rw [hmain, h0]
  exact ⟨by decide, rfl, by decide⟩

theorem missing_reference_behavior_witness :
    (clone_voice_from_sample cloneEnvNoRef "hello" "ref.wav" "out.wav" "en" 1).ok = false ∧
      (clone_voice_from_sample cloneEnvNoRef "hello" "ref.wav" "out.wav" "en" 1).engineCalled =
        false :=
  ⟨(missing_reference_behavior.2 cloneEnvNoRef "hello" "ref.wav" "out.wav" "en" 1
      rfl rfl rfl).1,
    (missing_reference_behavior.2 cloneEnvNoRef "hello" "ref.wav" "out.wav" "en" 1
      rfl rfl rfl).2.1⟩

/-- No call of `_fallback_tts` ever attempts more than one engine. -/
theorem fallback_attempts_le_one (env : TtsEnv) (text out : String) :
    ((fallback_tts env text out).attempts).length ≤ 1 := by
  unfold fallback_tts
  dsimp only
  split
  · split
    · simp
    · split
      · split <;> simp
      · simp
  · split
    · split <;> simp
    · simp

/-- C3: when the primary (Coqui TTS) engine raises a hard failure and the
GTTS backend is importable as fallback, the dispatcher attempts exactly
one fallback engine; if that fallback also raises, the outcome is failure
with the original primary failure reason preserved (first) in the
caller-visible report; and no dispatch ever attempts more than one
fallback engine. -/
theorem primary_failure_single_fallback (env : TtsEnv) (text out msg msg2 : String)
    (hp : env.primary_engine = some "TTS") (hl : env.tts_loaded = true)
    (hfail : env.tts_speak text (xtts_lang_for text) out = Except.error msg)
    (hg : env.gtts_available = true)
    (hgf : env.gtts_save text (detect_lang text) out = Except.error msg2) :
    (simple_text_to_speech env text out).ok = false ∧
      (simple_text_to_speech env text out).attempts =
        [Attempt.primaryTTS text (xtts_lang_for text) out,
          Attempt.fallbackGTTS text (detect_lang text) out] ∧
      (simple_text_to_speech env text out).log =
        [TtsLog.genError msg, TtsLog.fallbackError msg2] ∧
      (∀ (env2 : TtsEnv) (t o : String), ((fallback_tts env2 t o).attempts).length ≤ 1) := by
  have hfb : fallback_tts env text out =
      { ok := false, attempts := [Attempt.fallbackGTTS text (detect_lang text) out],
        log := [TtsLog.fallbackError msg2], fs := env.fs } := by
    unfold fallback_tts
    rw [if_pos ⟨hg, by rw [hp]; decide⟩]
    dsimp only
    rw [hgf]
  have hmain : simple_text_to_speech env text out =
      { ok := false,
        attempts := [Attempt.primaryTTS text (xtts_lang_for text) out,
          Attempt.fallbackGTTS text (detect_lang text) out],
        log := [TtsLog.genError msg, TtsLog.fallbackError msg2], fs := env.fs } := by
    unfold simple_text_to_speech
    rw [if_pos ⟨hp, hl⟩]
    dsimp only
    rw [hfail, hfb]
  rw [hmain]
  exact ⟨rfl, rfl, rfl, fun env2 t o => fallback_attempts_le_one env2 t o⟩

theorem primary_failure_single_fallback_witness :
    (simple_text_to_speech ttsEnvBothFail "hi" "out.wav").ok = false ∧
      (simple_text_to_speech ttsEnvBothFail "hi" "out.wav").log =
        [TtsLog.genError "primary boom", TtsLog.fallbackError "fallback boom"] :=
  ⟨(primary_failure_single_fallback ttsEnvBothFail "hi" "out.wav" "primary boom"
      "fallback boom" rfl rfl rfl rfl rfl).1,
    (primary_failure_single_fallback ttsEnvBothFail "hi" "out.wav" "primary boom"
      "fallback boom" rfl rfl rfl rfl rfl).2.2.1⟩

/-- C4 (amended): after an apparently-successful engine call the
dispatcher checks at most existence — the clone path succeeds iff the
output file exists, regardless of its size (no `EmptyOutput` failure);
the primary GTTS path still returns success below 1000 bytes and only
prints a warning; only the `_fallback_tts` GTTS path enforces the
1000-byte minimum, failing on a file of 1000 bytes or fewer. -/
theorem output_size_check_behavior :
    (∀ (env : CloneEnv) (text spk out lang : String) (speed : Rat) (sz : Nat) (fs2 : FS),
      env.primary_engine = some "TTS" → env.tts_loaded = true → env.fs spk = some sz →
      env.tts_clone text spk (pick_language env.supported_languages lang) (clampSpeed speed) out
        = Except.ok fs2 →
      (clone_voice_from_sample env text spk out lang speed).ok = (fs2 out).isSome)
    ∧ (∀ (env : TtsEnv) (text out : String) (fs2 : FS) (size : Nat),
      env.gtts_available = true → env.primary_engine ≠ some "GTTS" →
      env.gtts_save text (detect_lang text) out = Except.ok fs2 → fs2 out = some size →
      (fallback_tts env text out).ok = decide (1000 < size))
    ∧ (∀ (env : TtsEnv) (text out : String) (fs2 : FS) (size : Nat),
      env.primary_engine = some "GTTS" →
      env.gtts_save text (detect_lang text) out = Except.ok fs2 → fs2 out = some size →
      (simple_text_to_speech env text out).ok = true ∧
        (size < 1000 →
          TtsLog.maybeEmptyWarning ∈ (simple_text_to_speech env text out).log)) := by
  refine ⟨fun env text spk out lang speed sz fs2 hp hl hs hok => ?_,
    fun env text out fs2 size hg hne hok hsz => ?_,
    fun env text out fs2 size hp hok hsz => ?_⟩
  · unfold clone_voice_from_sample
    rw [if_neg (by simp [hp, hl]), if_neg (by simp [hs])]
    dsimp only
    rw [hok]
    cases h2 : fs2 out with
    | some size => simp [h2]
    | none => simp [h2]
  · unfold fallback_tts
    rw [if_pos ⟨hg, hne⟩]
    dsimp only
    simp only [hok, hsz]
    by_cases hlt : 1000 < size
    · simp [hlt]
    · simp [hlt]
  · unfold simple_text_to_speech
    rw [if_neg (by simp [hp]), if_pos hp]
    dsimp only
    simp only [hok, hsz]
    refine ⟨trivial, fun hlt => ?_⟩
    rw [if_pos hlt]
    simp

/-- C4 counterexample: with the reference present and the engine
reporting success while writing a zero-byte output file, the cloning
dispatcher returns success — no `EmptyOutput` failure is produced. -/
theorem empty_output_counterexample :
    (clone_voice_from_sample cloneEnvZero "hello" "ref.wav" "out.wav" "en" 1).ok = true ∧
      (clone_voice_from_sample cloneEnvZero "hello" "ref.wav" "out.wav" "en" 1).fs "out.wav" =
        some 0 :=
  ⟨rfl, rfl⟩

theorem output_size_check_behavior_witness :
    (clone_voice_from_sample cloneEnvZero "hello" "ref.wav" "out.wav" "en" 1).ok =
      (fsWith "out.wav" 0 fs0 "out.wav").isSome :=
  output_size_check_behavior.1 cloneEnvZero "hello" "ref.wav" "out.wav" "en" 1 50000
    (fsWith "out.wav" 0 fs0) rfl rfl rfl rfl

/-- C8 (amended): the dispatcher performs no empty-text validation — when
cloning is available and the reference file exists, an empty text reaches
the engine like any other text; blank texts are excluded only by the
batch loops, which skip them before any dispatcher call, so every
dispatcher call made by a batch run carries a non-blank text. -/
theorem empty_text_no_validation :
    (∀ (env : CloneEnv) (spk out lang : String) (speed : Rat) (sz : Nat),
      env.primary_engine = some "TTS" → env.tts_loaded = true → env.fs spk = some sz →
      (clone_voice_from_sample env "" spk out lang speed).engineCalled = true)
    ∧ (∀ (env : BatchEnv) (i0 : Nat) (texts : List String),
      ∀ c ∈ (process_rows env i0 texts).calls, pyBlank c.textOf = false) := by
  constructor
  · intro env spk out lang speed sz hp hl hs
    exact clone_run_engineCalled env "" spk out lang speed sz hp hl hs
  · intro env i0 texts
    induction texts generalizing i0 with
    | nil => intro c hc; simp [process_rows] at hc
    | cons t rest ih =>
      intro c hc
      simp only [process_rows] at hc
      by_cases h : pyBlank t
      · rw [if_pos h] at hc
        exact ih (i0 + 1) c hc
      · rw [if_neg h] at hc
        obtain ⟨c2, hc2, ht⟩ :=
          batchItem_calls_textOf env i0 t "Row" (process_rows env (i0 + 1) rest)
        rw [hc2] at hc
        rcases List.mem_cons.mp hc with h1 | h2
        · rw [h1, ht]
          simpa using h
        · exact ih (i0 + 1) c h2

/-- C8 counterexample: an empty text is not rejected by the dispatcher —
with the reference file present the engine is invoked on the empty text
and the call even succeeds, so no `InvalidInput` validation exists. -/
theorem empty_text_counterexample :
    (clone_voice_from_sample cloneEnvOk "" "ref.wav" "out.wav" "en" 1).engineCalled = true ∧
      (clone_voice_from_sample cloneEnvOk "" "ref.wav" "out.wav" "en" 1).ok = true :=
  ⟨rfl, rfl⟩

theorem empty_text_no_validation_witness :
    (clone_voice_from_sample cloneEnvOk "" "ref.wav" "out.wav" "en" 1).engineCalled = true :=
  empty_text_no_validation.1 cloneEnvOk "ref.wav" "out.wav" "en" 1 50000 rfl rfl rfl

end VoiceCloning
